import Mathlib

/-!
# Verification of the ENERLYTICS backend query-filter / pagination engine

Shallow embedding of the core components of the backend:

* `src/core/query_parser.py` — `QueryParser` (`parse_query_params`,
  `_parse_single_param`, `_parse_value`), `build_search_filters`;
* `src/database/models.py` — `Filter`, `Base.apply_filter`;
* `src/database/pagination.py` — `PageParams`, `PaginatedResponse`,
  `paginate_query`.

Python's dynamically-typed values are embedded as `PyScalar` (string,
int, float, bool, `None`) and `PyValue` (a scalar or a list of scalars):
every value the engine constructs or consumes has one of these shapes.
Python `float` values only ever arise here as directly parsed decimal
literals that are carried opaquely into filter values (the engine
performs no floating-point arithmetic), so they are embedded as the
exact rationals they denote.

The Python string primitives the engine uses (`split`, `strip`,
`lower`, `in`, `int(...)`, `float(...)`) are embedded as structurally
recursive functions over `List Char`, so that every definition is
executable by kernel reduction.
-/

namespace Enerlytics

/-- A scalar Python value as used by the query engine. Floats are
modelled exactly as rationals, see the module header. -/
inductive PyScalar where
  | str (s : String)
  | int (n : Int)
  | float (q : Rat)
  | bool (b : Bool)
  | none
deriving Repr, DecidableEq

/-- A dynamically typed Python value as used by the query engine:
a scalar or a list of scalars. -/
inductive PyValue where
  | scalar (v : PyScalar)
  | list (vs : List PyScalar)
deriving Repr, DecidableEq

/-- Shorthand for an embedded Python string value. -/
def PyValue.str (s : String) : PyValue := .scalar (.str s)

/-- Shorthand for an embedded Python int value. -/
def PyValue.int (n : Int) : PyValue := .scalar (.int n)

/-- Shorthand for an embedded Python float value. -/
def PyValue.float (q : Rat) : PyValue := .scalar (.float q)

/-- Shorthand for an embedded Python bool value. -/
def PyValue.bool (b : Bool) : PyValue := .scalar (.bool b)

/-- Shorthand for embedded Python `None`. -/
def PyValue.none : PyValue := .scalar .none

/-- The whitespace characters stripped by Python's `str.strip()`
(ASCII subset; Python also strips rarer Unicode whitespace). -/
def isPySpace (c : Char) : Bool :=
  c = ' ' || c = '\t' || c = '\n' || c = '\r' || c = '\x0b' || c = '\x0c'

/-- Python `str.strip()`. -/
def pyStrip (s : String) : String :=
  String.mk (((s.data.dropWhile isPySpace).reverse.dropWhile isPySpace).reverse)

/-- Split a character list on every occurrence of a separator character
(Python `str.split(sep)` semantics: `"".split(",") == [""]`). -/
def splitOnChar (sep : Char) : List Char → List (List Char)
  | [] => [[]]
  | c :: cs =>
    let r := splitOnChar sep cs
    if c = sep then [] :: r
    else
      match r with
      | [] => [[c]]
      | t :: ts => (c :: t) :: ts

/-- Python `s.split(sep)` for a one-character separator `sep`. -/
def pySplitChar (sep : Char) (s : String) : List String :=
  (splitOnChar sep s.data).map String.mk

/-- Python `str.lower()` (ASCII case mapping). -/
def pyLower (s : String) : String :=
  String.mk (s.data.map Char.toLower)

/-- Python `c in s` for a single character `c`. -/
def strContains (s : String) (c : Char) : Bool :=
  s.data.any (fun x => x = c)

/-- Numeric value of a list of decimal digit characters (most significant first). -/
def digitsToNat (cs : List Char) : Nat :=
  cs.foldl (fun acc c => acc * 10 + (c.toNat - 48)) 0

/-- Parse a nonempty all-digit character list to a natural number. -/
def parseDigits (cs : List Char) : Option Nat :=
  if cs ≠ [] ∧ cs.all Char.isDigit then some (digitsToNat cs)
  else Option.none

/-- Model of Python's `int(str)` builtin on the base-10 forms the query
engine can meet: optional surrounding whitespace, optional `+`/`-` sign,
then decimal digits. (Python additionally allows underscore digit
separators; those are not modelled.) `Option.none` models `ValueError`. -/
def pyInt (s : String) : Option Int :=
  match (pyStrip s).data with
  | '+' :: rest => (parseDigits rest).map (fun n => (n : Int))
  | '-' :: rest => (parseDigits rest).map (fun n => -(n : Int))
  | cs => (parseDigits cs).map (fun n => (n : Int))

/-- Model of Python's `float(str)` builtin on decimal-point literals:
optional surrounding whitespace, optional sign, `digits.digits` with at
least one digit present on one side of the point. Exponent, `inf` and
`nan` forms are not modelled (the engine only reaches this call for
strings containing `'.'`). The value is the exact rational denoted,
see the module header. `Option.none` models `ValueError`. -/
def pyFloat (s : String) : Option Rat :=
  let sb : Int × List Char :=
    match (pyStrip s).data with
    | '-' :: rest => (-1, rest)
    | '+' :: rest => (1, rest)
    | cs => (1, cs)
  match splitOnChar '.' sb.2 with
  | [ip, fp] =>
    if (ip ≠ [] ∨ fp ≠ []) ∧ ip.all Char.isDigit ∧ fp.all Char.isDigit then
      some (mkRat (sb.1 * ((digitsToNat ip : Int) * 10 ^ fp.length
        + (digitsToNat fp : Int))) (10 ^ fp.length))
    else Option.none
  | _ => Option.none

/-- `float(p) if "." in p else int(p)` from `QueryParser._parse_value`,
with `Option.none` modelling `ValueError`. -/
def pyNum (p : String) : Option PyScalar :=
  if strContains p '.' then (pyFloat p).map PyScalar.float
  else (pyInt p).map PyScalar.int

/-- `Filter` pydantic model from `src/database/models.py`: a predicate
specification `(field, operator, value)`. The operator is kept as a
string; the closed operator vocabulary is `SUPPORTED_OPERATORS`. -/
structure Filter where
  field : String
  operator : String
  value : PyValue
deriving Repr, DecidableEq

namespace QueryParser

/-- `QueryParser.SUPPORTED_OPERATORS` from `src/core/query_parser.py`. -/
def SUPPORTED_OPERATORS : List String :=
  ["==", "!=", ">", ">=", "<", "<=", "in", "not in", "is", "is not",
   "like", "ilike", "between", "not between"]

/-- The reserved query keys skipped by `parse_query_params`. -/
def RESERVED_KEYS : List String :=
  ["filters", "page", "size", "sort_by", "sort_order", "search"]

/-- Split a character list at the first occurrence of `"__"`:
`some (before, after)` when the separator occurs, `Option.none`
otherwise. -/
def splitKeyChars : List Char → Option (List Char × List Char)
  | [] => Option.none
  | '_' :: '_' :: rest => some ([], rest)
  | c :: rest => (splitKeyChars rest).map (fun p => (c :: p.1, p.2))

/-- `key.split("__", 1)` when `"__" in key`, else `(key, "==")`
(from `QueryParser._parse_single_param`). -/
def splitKey (key : String) : String × String :=
  match splitKeyChars key.data with
  | some fo => (String.mk fo.1, String.mk fo.2)
  | Option.none => (key, "==")

/-- `if allowed_fields and field not in allowed_fields: return []` —
the parameter survives the allow-list check iff `allowed_fields` is
falsy (`None` or the empty list) or contains the field. -/
def fieldAllowed (allowed_fields : Option (List String)) (field : String) : Bool :=
  match allowed_fields with
  | Option.none => true
  | some l => l.isEmpty || l.contains field

/-- `QueryParser._parse_value` from `src/core/query_parser.py`.
A result of `PyValue.none` models Python `None` (the caller then drops
the filter). -/
def parse_value (value : PyValue) (operator : String) : PyValue :=
  match value with
  | .scalar (.str s) =>
    if operator = "in" || operator = "not in" then
      .list ((((pySplitChar ',' s).map pyStrip).filter (fun v => v ≠ "")).map .str)
    else if operator = "between" || operator = "not between" then
      let parts := (pySplitChar ',' s).map pyStrip
      if parts.length = 2 then
        match parts.mapM pyNum with
        | some vs => .list vs
        | Option.none => .list (parts.map .str)
      else .none
    else if pyLower s = "true" || pyLower s = "false" then
      .bool (pyLower s = "true")
    else if pyLower s = "null" || pyLower s = "none" then
      .none
    else
      match pyNum s with
      | some v => .scalar v
      | Option.none => .str s
  | v => v

/-- `QueryParser._parse_single_param` from `src/core/query_parser.py`. -/
def parse_single_param (key : String) (value : PyValue)
    (allowed_fields : Option (List String)) : List Filter :=
  if !fieldAllowed allowed_fields (splitKey key).1 then []
  else if !SUPPORTED_OPERATORS.contains (splitKey key).2 then []
  else if parse_value value (splitKey key).2 ≠ .none then
    [⟨(splitKey key).1, (splitKey key).2, parse_value value (splitKey key).2⟩]
  else []

/-- `QueryParser.parse_query_params` from `src/core/query_parser.py`.
The query-parameter mapping is embedded as an insertion-ordered
association list. -/
def parse_query_params (query_params : List (String × PyValue))
    (allowed_fields : Option (List String)) : List Filter :=
  query_params.foldl
    (fun filters kv =>
      if RESERVED_KEYS.contains kv.1 then filters
      else if kv.2 = .none ∨ kv.2 = .str "" then filters
      else filters ++ parse_single_param kv.1 kv.2 allowed_fields)
    []

end QueryParser

/-- `build_search_filters` from `src/core/query_parser.py`. -/
def build_search_filters (search_term : String) (fields : List String) : List Filter :=
  if search_term = "" || fields = [] then []
  else fields.map (fun field => ⟨field, "ilike", .str ("%" ++ search_term ++ "%")⟩)

/-- A database row, embedding an ORM entity: a mapping from column
names to scalar values (`getattr(cls, filter.field)` resolves a column;
a row evaluates it to a scalar). -/
def Row : Type := String → PyScalar

/-- Numeric reading of a scalar, when it has one. -/
def PyScalar.toRat? : PyScalar → Option Rat
  | .int n => some ((n : Rat))
  | .float q => some q
  | _ => Option.none

/-- SQL equality between two non-NULL-aware scalars as compiled for the
literals the engine produces: numeric values compare numerically,
strings and booleans structurally; a NULL operand compares unequal
(SQL three-valued logic collapsed to `false` in a `WHERE` clause). -/
def sqlEq (a b : PyScalar) : Bool :=
  match a.toRat?, b.toRat? with
  | some x, some y => decide (x = y)
  | _, _ =>
    match a, b with
    | .str s, .str t => decide (s = t)
    | .bool x, .bool y => x == y
    | _, _ => false

/-- SQL strict ordering on scalars: numeric values numerically, strings
lexicographically; comparisons involving NULL or mixed non-numeric
types are `false` (unknown collapsed to `false`). -/
def sqlLt (a b : PyScalar) : Bool :=
  match a.toRat?, b.toRat? with
  | some x, some y => decide (x < y)
  | _, _ =>
    match a, b with
    | .str s, .str t => decide (s < t)
    | .bool x, .bool y => !x && y
    | _, _ => false

/-- Non-strict SQL ordering on scalars. -/
def sqlLe (a b : PyScalar) : Bool :=
  sqlLt a b || sqlEq a b

/-- SQL `LIKE` pattern matching over character lists with `%` (any
sequence) and `_` (any single character) wildcards, with fuel to keep
the recursion structural; `fuel ≥ pattern.length + s.length + 1`
always suffices since every recursive call shrinks their total length. -/
def likeMatchFuel : Nat → List Char → List Char → Bool
  | 0, _, _ => false
  | fuel + 1, pat, s =>
    match pat, s with
    | [], rest => rest.isEmpty
    | '%' :: ps, [] => likeMatchFuel fuel ps []
    | '%' :: ps, c :: cs =>
      likeMatchFuel fuel ps (c :: cs) || likeMatchFuel fuel ('%' :: ps) cs
    | '_' :: _, [] => false
    | '_' :: ps, _ :: cs => likeMatchFuel fuel ps cs
    | _ :: _, [] => false
    | p :: ps, c :: cs => p == c && likeMatchFuel fuel ps cs

/-- SQL `LIKE`: does `s` match the wildcard pattern `pat`? -/
def sqlLike (pat s : String) : Bool :=
  likeMatchFuel (pat.length + s.length + 1) pat.data s.data

/-- Python iteration over a filter value, as consumed by
`field.in_(filter.value)`: a list iterates its elements, a string its
characters (each a one-character string); other scalars are not
iterable (`TypeError`). -/
def pyIter : PyValue → Option (List PyScalar)
  | .list vs => some vs
  | .scalar (.str s) => some (s.data.map (fun c => .str (String.mk [c])))
  | _ => Option.none

/-- Python subscription `filter.value[i]`, as used by the
`between` branches: lists and strings are subscriptable
(`IndexError` out of range), other scalars are not (`TypeError`). -/
def pyIndex (v : PyValue) (i : Nat) : Option PyScalar :=
  match v with
  | .list vs => vs.get? i
  | .scalar (.str s) => (s.data.get? i).map (fun c => .str (String.mk [c]))
  | _ => Option.none

/-- The ways building a condition in `Base.apply_filter` can raise:
the explicit `raise ValueError(f"Invalid operator: ...")` in the final
`else`, or a `TypeError`/`IndexError` from consuming a filter value
whose shape the operator cannot use (`filter.value[0]` /
`field.in_(filter.value)`). -/
inductive CompileError where
  | invalidOperator (op : String)
  | badValueShape
deriving Repr, DecidableEq

/-- The condition built for one `Filter` by the `if`/`elif` chain of
`Base.apply_filter` in `src/database/models.py`, as a row predicate.
`==`/`!=` with a `None` literal follow SQLAlchemy and compile to
`IS NULL` / `IS NOT NULL`; otherwise comparisons with a NULL row value
are `false` (SQL unknown collapsed in `WHERE`). -/
def buildCondition (f : Filter) : Except CompileError (Row → Bool) :=
  if f.operator = "==" then
    .ok (fun r => match f.value with
      | .scalar .none => decide (r f.field = PyScalar.none)
      | .scalar v => sqlEq (r f.field) v
      | .list _ => false)
  else if f.operator = "!=" then
    .ok (fun r => match f.value with
      | .scalar .none => !(decide (r f.field = PyScalar.none))
      | .scalar v => !(decide (r f.field = PyScalar.none)) && !sqlEq (r f.field) v
      | .list _ => false)
  else if f.operator = ">" then
    .ok (fun r => match f.value with
      | .scalar v => sqlLt v (r f.field)
      | .list _ => false)
  else if f.operator = ">=" then
    .ok (fun r => match f.value with
      | .scalar v => sqlLe v (r f.field)
      | .list _ => false)
  else if f.operator = "<" then
    .ok (fun r => match f.value with
      | .scalar v => sqlLt (r f.field) v
      | .list _ => false)
  else if f.operator = "<=" then
    .ok (fun r => match f.value with
      | .scalar v => sqlLe (r f.field) v
      | .list _ => false)
  else if f.operator = "in" then
    match pyIter f.value with
    | some vs => .ok (fun r => vs.any (fun x => sqlEq (r f.field) x))
    | Option.none => .error .badValueShape
  else if f.operator = "not in" then
    match pyIter f.value with
    | some vs =>
      .ok (fun r => !(decide (r f.field = PyScalar.none))
        && !vs.any (fun x => sqlEq (r f.field) x))
    | Option.none => .error .badValueShape
  else if f.operator = "is" then
    .ok (fun r => match f.value with
      | .scalar v => decide (r f.field = v)
      | .list _ => false)
  else if f.operator = "is not" then
    .ok (fun r => match f.value with
      | .scalar v => !(decide (r f.field = v))
      | .list _ => false)
  else if f.operator = "like" then
    .ok (fun r => match f.value, r f.field with
      | .scalar (.str p), .str s => sqlLike p s
      | _, _ => false)
  else if f.operator = "ilike" then
    .ok (fun r => match f.value, r f.field with
      | .scalar (.str p), .str s => sqlLike (pyLower p) (pyLower s)
      | _, _ => false)
  else if f.operator = "between" then
    match pyIndex f.value 0, pyIndex f.value 1 with
    | some a, some b =>
      .ok (fun r => sqlLe a (r f.field) && sqlLe (r f.field) b)
    | _, _ => .error .badValueShape
  else if f.operator = "not between" then
    match pyIndex f.value 0, pyIndex f.value 1 with
    | some a, some b =>
      .ok (fun r => !(decide (r f.field = PyScalar.none))
        && !(sqlLe a (r f.field) && sqlLe (r f.field) b))
    | _, _ => .error .badValueShape
  else
    .error (.invalidOperator f.operator)

/-- The `for filter in filters` loop of `Base.apply_filter`: build every
condition, raising at the first failure. -/
def buildConditions : List Filter → Except CompileError (List (Row → Bool))
  | [] => .ok []
  | f :: fs =>
    match buildCondition f with
    | .error e => .error e
    | .ok c =>
      match buildConditions fs with
      | .error e => .error e
      | .ok cs => .ok (c :: cs)

/-- `Base.apply_filter` from `src/database/models.py`. A query is
embedded as its `WHERE`-predicate over rows; `query.where(*conditions)`
conjoins all conditions with the existing predicate, and
`query.where(or_(*conditions))` conjoins their disjunction. -/
def apply_filter (query : Row → Bool) (filters : List Filter)
    (as_or : Bool) : Except CompileError (Row → Bool) :=
  if filters.isEmpty then .ok query
  else
    match buildConditions filters with
    | .error e => .error e
    | .ok conditions =>
      if as_or then .ok (fun r => query r && conditions.any (fun c => c r))
      else .ok (fun r => query r && conditions.all (fun c => c r))

/-- Whether building the condition for a filter succeeds. -/
def condOk (f : Filter) : Bool :=
  match buildCondition f with
  | .ok _ => true
  | .error _ => false

/-- The condition built for a filter, defaulting to `false` when
building fails (only used under a `condOk` hypothesis). -/
def evalCond (f : Filter) : Row → Bool :=
  match buildCondition f with
  | .ok c => c
  | .error _ => fun _ => false

/-- `PageParams` from `src/database/pagination.py` (`offset` is set by
`__init__` from `page` and `size`, see `PageParams.make`). -/
structure PageParams where
  page : Int
  size : Int
  offset : Int
  sort_by : String
  sort_order : String

/-- `PageParams.__init__`: stores `page`, `size`,
`offset = (page - 1) * size`, `sort_by`, `sort_order`. -/
def PageParams.make (page size : Int) (sort_by sort_order : String) : PageParams :=
  ⟨page, size, (page - 1) * size, sort_by, sort_order⟩

/-- `PaginatedResponse` from `src/database/pagination.py`. -/
structure PaginatedResponse where
  items : List Row
  total : Int
  page : Int
  size : Int
  pages : Int
  has_next : Bool
  has_prev : Bool

/-- `ORDER BY {sort_by} {sort_order}` as a stable insertion step. -/
def insertSorted (le : Row → Row → Bool) (x : Row) : List Row → List Row
  | [] => [x]
  | y :: ys => if le x y then x :: y :: ys else y :: insertSorted le x ys

/-- Stable insertion sort used to model SQL `ORDER BY`. -/
def sortRows (le : Row → Row → Bool) : List Row → List Row
  | [] => []
  | x :: xs => insertSorted le x (sortRows le xs)

/-- The ordering applied by
`query.order_by(text(f"{sort_by} {sort_order}"))`: rows compared on the
`sort_by` column, descending when `sort_order = "desc"`. -/
def orderRows (sort_by sort_order : String) (rows : List Row) : List Row :=
  if sort_order = "desc" then
    sortRows (fun a b => !sqlLt (a sort_by) (b sort_by)) rows
  else
    sortRows (fun a b => !sqlLt (b sort_by) (a sort_by)) rows

/-- `paginate_query` from `src/database/pagination.py`. The database is
embedded as the list of rows of the queried table, the compiled query
as its `WHERE`-predicate; `pages` uses Python's floor division `//`
(`Int.fdiv`); `offset`/`limit` become `drop`/`take` on the ordered
row list. -/
def paginate_query (db : List Row) (query : Row → Bool)
    (page_params : PageParams) : PaginatedResponse :=
  let matched := db.filter query
  let total : Int := matched.length
  let total_pages : Int := max ((total + page_params.size - 1).fdiv page_params.size) 1
  let sorted := orderRows page_params.sort_by page_params.sort_order matched
  let items := (sorted.drop page_params.offset.toNat).take page_params.size.toNat
  { items := items
    total := total
    page := page_params.page
    size := page_params.size
    pages := total_pages
    has_next := decide (page_params.page < total_pages)
    has_prev := decide (page_params.page > 1) }

/-- C4 (witness): a concrete row `rowHit` with status `"info"` and an
`"x"` in its title. -/
def rowHit : Row := fun f =>
  if f = "status" then .str "info"
  else if f = "title" then .str "Axle"
  else if f = "message" then .str "routine"
  else .none

/-- C4 (witness): a concrete row with status `"info"` but no `"x"` in
title or message. -/
def rowNoTerm : Row := fun f =>
  if f = "status" then .str "info"
  else if f = "title" then .str "Toledo"
  else if f = "message" then .str "yarn"
  else .none

/-- C4 (witness): a concrete row with an `"x"` in the title but status
`"warning"`. -/
def rowNoStatus : Row := fun f =>
  if f = "status" then .str "warning"
  else if f = "title" then .str "box"
  else if f = "message" then .str "routine"
  else .none

/-- C5 (witness): a table of 105 rows matched in full. -/
def dbDemo : List Row := List.replicate 105 (fun _ => PyScalar.none)

/-- C5 (witness): the trivial base query matching every row. -/
def allRowsQuery : Row → Bool := fun _ => true

example : pyNum "10" = some (.int 10) := by decide
example : pyNum "10.5" = some (.float (mkRat 21 2)) := by decide
example : pyNum "abc" = Option.none := by decide
example : QueryParser.parse_value (.str "10.5,20") "between"
    = .list [.float (mkRat 21 2), .int 20] := by decide
example : QueryParser.parse_value (.str "a,b, ,c") "in"
    = .list [.str "a", .str "b", .str "c"] := by decide
example : QueryParser.parse_value (.str "FALSE") "==" = .bool false := by decide
example : QueryParser.parse_value (.str "Null") "is" = .none := by decide
example : QueryParser.splitKey "value__between" = ("value", "between") := by decide
example : QueryParser.splitKey "status" = ("status", "==") := by decide
example : QueryParser.parse_single_param "status" (.str "info") (some ["status"])
    = [⟨"status", "==", .str "info"⟩] := by decide

/-! ## Claim theorems -/

/-- C1 (counterexample): the code does not coerce both `between` tokens
to float when either contains `'.'` — `"10.5,20"` parses to the mixed
list `[10.5, 20]` (a float and an int), not to `[10.5, 20.0]` as the
claim states. -/
theorem C1_counterexample :
    QueryParser.parse_value (.str "10.5,20") "between"
        = .list [.float (mkRat 21 2), .int 20]
      ∧ QueryParser.parse_value (.str "10.5,20") "between"
        ≠ .list [.float (mkRat 21 2), .float (mkRat 20 1)] := by
  decide

/-- C1 (amended): for a `between`/`not between` parameter whose string
value splits on `','` into exactly 2 stripped tokens, each token is
numerically parsed independently — that token becomes a float iff it
contains `'.'`, else an int (so `10.5,20` gives `[10.5, 20]`, a float
and an int); if parsing of either token fails the value falls back to
the two raw (stripped) strings, and any token count other than 2 drops
the filter (`None` result). -/
theorem C1_between_coercion (s op : String)
    (hop : op = "between" ∨ op = "not between") :
    (((pySplitChar ',' s).map pyStrip).length = 2 →
      (∀ vs, ((pySplitChar ',' s).map pyStrip).mapM pyNum = some vs →
        QueryParser.parse_value (.str s) op = .list vs)
      ∧ (((pySplitChar ',' s).map pyStrip).mapM pyNum = Option.none →
          QueryParser.parse_value (.str s) op
            = .list (((pySplitChar ',' s).map pyStrip).map .str)))
    ∧ (((pySplitChar ',' s).map pyStrip).length ≠ 2 →
        QueryParser.parse_value (.str s) op = .none)
    ∧ (∀ p v, pyNum p = some v →
        ((∃ q, v = .float q) ↔ strContains p '.' = true)
        ∧ ((∃ n, v = .int n) ↔ strContains p '.' = false)) := by
  have hnum : ∀ p v, pyNum p = some v →
      ((∃ q, v = PyScalar.float q) ↔ strContains p '.' = true)
      ∧ ((∃ n, v = PyScalar.int n) ↔ strContains p '.' = false) := by
    intro p v hv
    unfold pyNum at hv
    cases hc : strContains p '.'
    case true =>
      rw [hc, if_pos rfl] at hv
      cases hq : pyFloat p
      case none =>
        rw [hq] at hv
        exact absurd hv (by simp)
      case some q =>
        rw [hq] at hv
        have hvq : PyScalar.float q = v := by simpa using hv
        subst hvq
        constructor
        · exact iff_of_true ⟨q, rfl⟩ rfl
        · exact iff_of_false (by rintro ⟨n, hn⟩; cases hn) (by decide)
    case false =>
      rw [hc] at hv
      rw [if_neg (by simp)] at hv
      cases hn : pyInt p
      case none =>
        rw [hn] at hv
        exact absurd hv (by simp)
      case some n =>
        rw [hn] at hv
        have hvn : PyScalar.int n = v := by simpa using hv
        subst hvn
        constructor
        · exact iff_of_false (by rintro ⟨q, hq⟩; cases hq) (by decide)
        · exact iff_of_true ⟨n, rfl⟩ rfl
  have hmain : QueryParser.parse_value (.str s) op
      = (if ((pySplitChar ',' s).map pyStrip).length = 2 then
          match ((pySplitChar ',' s).map pyStrip).mapM pyNum with
          | some vs => .list vs
          | Option.none => .list (((pySplitChar ',' s).map pyStrip).map .str)
        else .none) := by
    rcases hop with rfl | rfl <;>
      simp [QueryParser.parse_value, PyValue.str]
  refine ⟨?_, ?_, hnum⟩
  · intro hlen
    constructor
    · intro vs hvs
      rw [hmain, if_pos hlen, hvs]
    · intro hfail
      rw [hmain, if_pos hlen, hfail]
  · intro hlen
    rw [hmain, if_neg hlen]

/-- C1 (witness): instantiation at `?value__between=10,20`, whose two
tokens are dot-free and parse to the two ints `[10, 20]`. -/
theorem C1_witness :
    QueryParser.parse_value (.str "10,20") "between"
      = .list [.int 10, .int 20] :=
  ((C1_between_coercion "10,20" "between" (Or.inl rfl)).1 (by decide)).1
    [.int 10, .int 20] (by decide)

/-- C2: a parameter whose field part is outside a supplied nonempty
allow-list, or whose operator part is not one of the 14 supported
operators, contributes zero filters — both at the single-parameter
level and through `parse_query_params` — rather than an error. -/
theorem C2_disallowed_param_dropped (key : String) (value : PyValue)
    (allowed : List String) (hne : allowed ≠ [])
    (h : allowed.contains (QueryParser.splitKey key).1 = false
       ∨ QueryParser.SUPPORTED_OPERATORS.contains (QueryParser.splitKey key).2
           = false) :
    QueryParser.parse_single_param key value (some allowed) = []
    ∧ QueryParser.parse_query_params [(key, value)] (some allowed) = [] := by
  have hsingle : QueryParser.parse_single_param key value (some allowed) = [] := by
    unfold QueryParser.parse_single_param
    rcases h with h | h
    · have hie : allowed.isEmpty = false := by
        cases allowed
        · exact absurd rfl hne
        · rfl
      have hfa : QueryParser.fieldAllowed (some allowed)
          (QueryParser.splitKey key).1 = false := by
        simp only [QueryParser.fieldAllowed]
        rw [hie, h]
        rfl
      rw [hfa]
      rfl
    · by_cases hfa : QueryParser.fieldAllowed (some allowed)
          (QueryParser.splitKey key).1 = true
      · rw [hfa, h]
        rfl
      · rw [Bool.not_eq_true] at hfa
        rw [hfa]
        rfl
  refine ⟨hsingle, ?_⟩
  unfold QueryParser.parse_query_params
  simp only [List.foldl]
  split
  · rfl
  · split
    · rfl
    · rw [List.nil_append, hsingle]

/-- C2 (witness): instantiation at `?secret__like=admin` against the
allow-list `["status"]` (disallowed field) — zero filters. -/
theorem C2_witness :
    QueryParser.parse_single_param "secret__like" (.str "admin")
        (some ["status"]) = []
    ∧ QueryParser.parse_query_params [("secret__like", .str "admin")]
        (some ["status"]) = [] :=
  C2_disallowed_param_dropped "secret__like" (.str "admin") ["status"]
    (by decide) (Or.inl (by decide))

/-- C3: with an empty allow-list (`None` or `[]`) the field validation
is skipped entirely: a parameter with a supported operator whose value
does not parse to an absent (`None`) value produces exactly one filter,
whatever its field name. -/
theorem C3_empty_allowlist_skips_validation (key : String) (value : PyValue)
    (allowed_fields : Option (List String))
    (hempty : allowed_fields = Option.none ∨ allowed_fields = some [])
    (hop : QueryParser.SUPPORTED_OPERATORS.contains
        (QueryParser.splitKey key).2 = true)
    (hval : QueryParser.parse_value value (QueryParser.splitKey key).2
        ≠ .none) :
    QueryParser.parse_single_param key value allowed_fields
      = [⟨(QueryParser.splitKey key).1, (QueryParser.splitKey key).2,
          QueryParser.parse_value value (QueryParser.splitKey key).2⟩] := by
  have hfa : QueryParser.fieldAllowed allowed_fields
      (QueryParser.splitKey key).1 = true := by
    rcases hempty with rfl | rfl <;> rfl
  unfold QueryParser.parse_single_param
  rw [hfa, hop]
  simp [hval]

/-- C3 (witness): instantiation at `?anything__like=abc` with the empty
allow-list `[]` — one filter, despite `anything` never being allowed. -/
theorem C3_witness :
    QueryParser.parse_single_param "anything__like" (.str "abc") (some [])
      = [⟨"anything", "like", .str "abc"⟩] := by
  have h := C3_empty_allowlist_skips_validation "anything__like" (.str "abc")
    (some []) (Or.inr rfl) (by decide) (by decide)
  exact h.trans (by decide)

/-- Helper: a parameter whose key splits to an allowed field and a
supported operator produces one filter holding the parsed value, unless
the value parses to `None`. -/
theorem parse_single_param_eq (key field op : String) (value : PyValue)
    (allowed_fields : Option (List String))
    (hsplit : QueryParser.splitKey key = (field, op))
    (hallow : QueryParser.fieldAllowed allowed_fields field = true)
    (hsup : QueryParser.SUPPORTED_OPERATORS.contains op = true) :
    QueryParser.parse_single_param key value allowed_fields
      = if QueryParser.parse_value value op ≠ .none then
          [⟨field, op, QueryParser.parse_value value op⟩]
        else [] := by
  unfold QueryParser.parse_single_param
  rw [hsplit]
  dsimp only
  rw [hallow, hsup]
  rfl

/-- Helper: a single-entry parameter mapping contributes exactly the
filters of its single parameter (unless reserved or empty-valued). -/
theorem parse_query_params_single (key : String) (value : PyValue)
    (allowed_fields : Option (List String))
    (hres : QueryParser.RESERVED_KEYS.contains key = false)
    (hval : ¬(value = .none ∨ value = .str "")) :
    QueryParser.parse_query_params [(key, value)] allowed_fields
      = QueryParser.parse_single_param key value allowed_fields := by
  unfold QueryParser.parse_query_params
  simp only [List.foldl]
  rw [if_neg (by rw [hres]; decide), if_neg hval, List.nil_append]

/-- C6: `build_search_filters` returns the empty list iff the term or
the field list is empty; otherwise one `ilike` filter per field, in
field order, each with the term wrapped in `%...%` verbatim (no
escaping of `%`/`_` inside the term). -/
theorem C6_search_filters (term : String) (fields : List String) :
    (term = "" ∨ fields = [] → build_search_filters term fields = [])
    ∧ (term ≠ "" → fields ≠ [] →
        build_search_filters term fields
          = fields.map (fun field =>
              ⟨field, "ilike", .str ("%" ++ term ++ "%")⟩)) := by
  constructor
  · intro h
    unfold build_search_filters
    rcases h with rfl | rfl
    · rw [if_pos (by simp)]
    · rw [if_pos (by simp)]
  · intro ht hf
    unfold build_search_filters
    rw [if_neg (by simp [ht, hf])]

/-- C6 (witness): `build_search_filters "john" ["title", "message"]` is
two `ilike` filters with value `"%john%"`, in field order. -/
theorem C6_witness :
    build_search_filters "john" ["title", "message"]
      = [⟨"title", "ilike", .str "%john%"⟩,
         ⟨"message", "ilike", .str "%john%"⟩] := by
  have h := (C6_search_filters "john" ["title", "message"]).2
    (by decide) (by decide)
  exact h.trans (by decide)

/-- C7: for an allowed field, a supported operator outside the
`in`/`not in`/`between`/`not between` family, and a string value
outside the `null`/`none` absent family (the subject of C9):
`true`/`false` in any letter case coerce to the matching boolean;
otherwise a value containing `'.'` is parsed as a float and one
without as an int, keeping the raw string on parse failure — and
exactly one filter is produced. -/
theorem C7_scalar_value_coercion (key field op s : String)
    (allowed_fields : Option (List String))
    (hsplit : QueryParser.splitKey key = (field, op))
    (hallow : QueryParser.fieldAllowed allowed_fields field = true)
    (hsup : QueryParser.SUPPORTED_OPERATORS.contains op = true)
    (hscal : op ≠ "in" ∧ op ≠ "not in" ∧ op ≠ "between" ∧ op ≠ "not between")
    (hnull : pyLower s ≠ "null" ∧ pyLower s ≠ "none") :
    QueryParser.parse_single_param key (.str s) allowed_fields
      = [⟨field, op,
          if pyLower s = "true" then .bool true
          else if pyLower s = "false" then .bool false
          else if strContains s '.' then
            match pyFloat s with
            | some q => .float q
            | Option.none => .str s
          else
            match pyInt s with
            | some n => .int n
            | Option.none => .str s⟩] := by
  obtain ⟨h1, h2, h3, h4⟩ := hscal
  have hv : QueryParser.parse_value (.str s) op
      = (if pyLower s = "true" then PyValue.bool true
        else if pyLower s = "false" then PyValue.bool false
        else if strContains s '.' then
          match pyFloat s with
          | some q => PyValue.float q
          | Option.none => PyValue.str s
        else
          match pyInt s with
          | some n => PyValue.int n
          | Option.none => PyValue.str s) := by
    unfold QueryParser.parse_value
    simp only [PyValue.str]
    rw [if_neg (by simp [h1, h2]), if_neg (by simp [h3, h4])]
    by_cases hb1 : pyLower s = "true"
    · rw [if_pos (by simp [hb1]), if_pos hb1, hb1]
      rfl
    · by_cases hb2 : pyLower s = "false"
      · rw [if_pos (by simp [hb2]), if_neg hb1, if_pos hb2]
        simp [PyValue.bool, hb1]
      · rw [if_neg (by simp [hb1, hb2]), if_neg hb1, if_neg hb2,
          if_neg (by simp [hnull.1, hnull.2])]
        unfold pyNum
        cases hc : strContains s '.'
        · rw [if_neg (by simp)]
          cases hn : pyInt s
          · rfl
          · rfl
        · rw [if_pos rfl]
          cases hq : pyFloat s
          · rfl
          · rfl
  have hne : (if pyLower s = "true" then PyValue.bool true
        else if pyLower s = "false" then PyValue.bool false
        else if strContains s '.' then
          match pyFloat s with
          | some q => PyValue.float q
          | Option.none => PyValue.str s
        else
          match pyInt s with
          | some n => PyValue.int n
          | Option.none => PyValue.str s) ≠ PyValue.none := by
    split
    · simp [PyValue.bool, PyValue.none]
    · split
      · simp [PyValue.bool, PyValue.none]
      · split
        · cases hq : pyFloat s <;>
            simp [PyValue.float, PyValue.str, PyValue.none]
        · cases hn : pyInt s <;>
            simp [PyValue.int, PyValue.str, PyValue.none]
  rw [parse_single_param_eq key field op (.str s) allowed_fields hsplit hallow hsup,
    hv, if_pos hne]

/-- C7 (witness): `?is_estimated=false` yields one filter with the
boolean value `False` (not the string `"false"`). -/
theorem C7_witness :
    QueryParser.parse_single_param "is_estimated" (.str "false")
        (some ["is_estimated"])
      = [⟨"is_estimated", "==", .bool false⟩] := by
  have h := C7_scalar_value_coercion "is_estimated" "is_estimated" "==" "false"
    (some ["is_estimated"]) (by decide) (by decide) (by decide)
    ⟨by decide, by decide, by decide, by decide⟩ ⟨by decide, by decide⟩
  exact h.trans (by decide)

/-- C8: an `in`/`not in` parameter with a string value yields one
filter whose value is the list of strings from splitting on `','`,
stripping each token, and dropping empty tokens — with no further
coercion (every element stays a string). -/
theorem C8_in_list_coercion (key field op s : String)
    (allowed_fields : Option (List String))
    (hsplit : QueryParser.splitKey key = (field, op))
    (hallow : QueryParser.fieldAllowed allowed_fields field = true)
    (hop : op = "in" ∨ op = "not in") :
    QueryParser.parse_single_param key (.str s) allowed_fields
      = [⟨field, op,
          .list ((((pySplitChar ',' s).map pyStrip).filter
            (fun v => v ≠ "")).map .str)⟩] := by
  have hsup : QueryParser.SUPPORTED_OPERATORS.contains op = true := by
    rcases hop with rfl | rfl <;> decide
  have hv : QueryParser.parse_value (.str s) op
      = .list ((((pySplitChar ',' s).map pyStrip).filter
          (fun v => v ≠ "")).map .str) := by
    rcases hop with rfl | rfl <;>
      simp [QueryParser.parse_value, PyValue.str]
  rw [parse_single_param_eq key field op (.str s) allowed_fields hsplit hallow hsup,
    hv, if_pos (by simp [PyValue.none])]

/-- C8 (witness): `?id__in=a,b, ,c` yields the filter value
`["a", "b", "c"]` — whitespace trimmed, the empty token dropped. -/
theorem C8_witness :
    QueryParser.parse_single_param "id__in" (.str "a,b, ,c") (some ["id"])
      = [⟨"id", "in", .list [.str "a", .str "b", .str "c"]⟩] := by
  have h := C8_in_list_coercion "id__in" "id" "in" "a,b, ,c" (some ["id"])
    (by decide) (by decide) (Or.inl rfl)
  exact h.trans (by decide)

/-- C9: for a supported operator outside the list family, a string
value reading `null`/`none` in any letter case is treated as absent:
no filter is produced (for any allow-list — in particular an allowed
field), so `IS NULL` cannot be expressed through this shortcut. -/
theorem C9_null_literal_drops_filter (key field op s : String)
    (allowed_fields : Option (List String))
    (hsplit : QueryParser.splitKey key = (field, op))
    (hsup : QueryParser.SUPPORTED_OPERATORS.contains op = true)
    (hscal : op ≠ "in" ∧ op ≠ "not in" ∧ op ≠ "between" ∧ op ≠ "not between")
    (hnull : pyLower s = "null" ∨ pyLower s = "none") :
    QueryParser.parse_single_param key (.str s) allowed_fields = []
    ∧ QueryParser.parse_query_params [(key, .str s)] allowed_fields = [] := by
  obtain ⟨h1, h2, h3, h4⟩ := hscal
  have hlit : pyLower s ≠ "true" ∧ pyLower s ≠ "false" := by
    rcases hnull with h | h <;> rw [h] <;> exact ⟨by decide, by decide⟩
  have hv : QueryParser.parse_value (.str s) op = .none := by
    unfold QueryParser.parse_value
    simp only [PyValue.str]
    rw [if_neg (by simp [h1, h2]), if_neg (by simp [h3, h4]),
      if_neg (by simp [hlit.1, hlit.2]), if_pos (by simp [hnull])]
  have hsingle : QueryParser.parse_single_param key (.str s) allowed_fields = [] := by
    by_cases hallow : QueryParser.fieldAllowed allowed_fields field = true
    · rw [parse_single_param_eq key field op (.str s) allowed_fields hsplit hallow hsup,
        hv]
      simp
    · unfold QueryParser.parse_single_param
      rw [hsplit]
      dsimp only
      rw [Bool.not_eq_true] at hallow
      rw [hallow]
      rfl
  refine ⟨hsingle, ?_⟩
  unfold QueryParser.parse_query_params
  simp only [List.foldl]
  split
  · rfl
  · split
    · rfl
    · rw [List.nil_append, hsingle]

/-- C9 (witness): `?field__is=null` against the allow-list
`["field"]` yields zero filters. -/
theorem C9_witness :
    QueryParser.parse_single_param "field__is" (.str "null") (some ["field"]) = []
    ∧ QueryParser.parse_query_params [("field__is", .str "null")]
        (some ["field"]) = [] :=
  C9_null_literal_drops_filter "field__is" "field" "is" "null" (some ["field"])
    (by decide) (by decide) ⟨by decide, by decide, by decide, by decide⟩
    (Or.inl (by decide))

/-- Helper: building the condition of a filter with a supported
operator never reaches the defensive `raise ValueError` branch (it can
fail only with a value-shape error). -/
theorem buildCondition_supported_not_invalid (f : Filter)
    (h : f.operator ∈ QueryParser.SUPPORTED_OPERATORS) (op : String) :
    buildCondition f ≠ .error (.invalidOperator op) := by
  simp only [QueryParser.SUPPORTED_OPERATORS, List.mem_cons,
    List.not_mem_nil, or_false] at h
  rcases h with h|h|h|h|h|h|h|h|h|h|h|h|h|h <;>
    unfold buildCondition <;> rw [h] <;>
    (try cases hv : pyIter f.value) <;>
    (try cases h0 : pyIndex f.value 0) <;>
    (try cases h1 : pyIndex f.value 1) <;>
    simp

/-- Helper: the condition loop over filters with supported operators
never raises the invalid-operator error. -/
theorem buildConditions_not_invalid (fs : List Filter)
    (h : ∀ f ∈ fs, f.operator ∈ QueryParser.SUPPORTED_OPERATORS) (op : String) :
    buildConditions fs ≠ .error (.invalidOperator op) := by
  induction fs with
  | nil => simp [buildConditions]
  | cons f fs ih =>
    intro hcontra
    unfold buildConditions at hcontra
    cases hbc : buildCondition f with
    | error e =>
      rw [hbc] at hcontra
      simp only [] at hcontra
      have he : e = .invalidOperator op := by
        simpa using hcontra
      rw [he] at hbc
      exact buildCondition_supported_not_invalid f
        (h f (List.mem_cons_self f fs)) op hbc
    | ok c =>
      rw [hbc] at hcontra
      cases hbcs : buildConditions fs with
      | error e =>
        rw [hbcs] at hcontra
        have he : e = .invalidOperator op := by
          simpa using hcontra
        rw [he] at hbcs
        exact ih (fun g hg => h g (List.mem_cons_of_mem f hg)) hbcs
      | ok cs =>
        rw [hbcs] at hcontra
        exact Except.noConfusion hcontra

/-- C10: for filters whose operators all lie in the closed supported
set, `apply_filter` never raises the defensive
`ValueError("Invalid operator: ...")` — that branch is reachable only
for an operator outside the set. -/
theorem C10_invalid_operator_unreachable (query : Row → Bool)
    (filters : List Filter) (as_or : Bool) (op : String)
    (hops : ∀ f ∈ filters, f.operator ∈ QueryParser.SUPPORTED_OPERATORS) :
    apply_filter query filters as_or ≠ .error (.invalidOperator op) := by
  unfold apply_filter
  split
  · exact fun hcontra => Except.noConfusion hcontra
  · cases hbc : buildConditions filters with
    | error e =>
      intro hcontra
      simp only [hbc] at hcontra
      have he : e = .invalidOperator op := by
        simpa using hcontra
      rw [he] at hbc
      exact buildConditions_not_invalid filters hops op hbc
    | ok conds =>
      simp only [hbc]
      split <;> exact fun hcontra => Except.noConfusion hcontra

/-- C10 (witness): a filter list exercising all 14 supported operators
never produces the invalid-operator error. -/
theorem C10_witness :
    apply_filter (fun _ => true)
      [⟨"a", "==", .int 1⟩, ⟨"a", "!=", .int 1⟩, ⟨"a", ">", .int 1⟩,
       ⟨"a", ">=", .int 1⟩, ⟨"a", "<", .int 1⟩, ⟨"a", "<=", .int 1⟩,
       ⟨"a", "in", .list [.int 1, .int 2]⟩,
       ⟨"a", "not in", .list [.int 1, .int 2]⟩,
       ⟨"a", "is", .none⟩, ⟨"a", "is not", .none⟩,
       ⟨"a", "like", .str "%x%"⟩, ⟨"a", "ilike", .str "%x%"⟩,
       ⟨"a", "between", .list [.int 1, .int 2]⟩,
       ⟨"a", "not between", .list [.int 1, .int 2]⟩]
      false ≠ .error (.invalidOperator "bogus") :=
  C10_invalid_operator_unreachable (fun _ => true) _ false "bogus" (by decide)

/-- Helper: when every condition builds, the loop returns them in
order. -/
theorem buildConditions_ok_map (fs : List Filter)
    (h : ∀ f ∈ fs, condOk f = true) :
    buildConditions fs = .ok (fs.map evalCond) := by
  induction fs with
  | nil => rfl
  | cons f fs ih =>
    have hf := h f (List.mem_cons_self f fs)
    have hfs := ih (fun g hg => h g (List.mem_cons_of_mem f hg))
    unfold condOk at hf
    unfold buildConditions
    cases hbc : buildCondition f with
    | error e =>
      rw [hbc] at hf
      exact absurd hf (by simp)
    | ok c =>
      have hec : evalCond f = c := by
        unfold evalCond
        rw [hbc]
      rw [hfs, List.map_cons, hec]

/-- Helper: evaluating all built conditions on a row is evaluating the
filters' conditions pointwise. -/
theorem all_map_evalCond (fs : List Filter) (r : Row) :
    (fs.map evalCond).all (fun c => c r) = fs.all (fun f => evalCond f r) := by
  induction fs with
  | nil => rfl
  | cons f fs ih => simp [List.all_cons, ih]

/-- Helper: evaluating any built condition on a row is evaluating the
filters' conditions pointwise. -/
theorem any_map_evalCond (gs : List Filter) (r : Row) :
    (gs.map evalCond).any (fun c => c r) = gs.any (fun g => evalCond g r) := by
  induction gs with
  | nil => rfl
  | cons g gs ih => simp [List.any_cons, ih]

/-- Helper: `apply_filter` with `as_or = False` conjoins all filter
conditions onto the base predicate. -/
theorem apply_filter_and_ok (query : Row → Bool) (fs : List Filter)
    (h : ∀ f ∈ fs, condOk f = true) :
    apply_filter query fs false
      = .ok (fun r => query r && fs.all (fun f => evalCond f r)) := by
  unfold apply_filter
  cases fs with
  | nil =>
    exact congrArg Except.ok (funext fun r => by simp)
  | cons f fs' =>
    rw [if_neg (by simp), buildConditions_ok_map _ h]
    exact congrArg Except.ok (funext fun r => by
      rw [all_map_evalCond])

/-- Helper: `apply_filter` with `as_or = True` on a nonempty filter
list conjoins the disjunction of the filter conditions onto the base
predicate. -/
theorem apply_filter_or_ok (query : Row → Bool) (gs : List Filter)
    (h : ∀ g ∈ gs, condOk g = true) (hne : gs ≠ []) :
    apply_filter query gs true
      = .ok (fun r => query r && gs.any (fun g => evalCond g r)) := by
  have hemp : gs.isEmpty = false := by
    cases gs
    · exact absurd rfl hne
    · rfl
  unfold apply_filter
  rw [if_neg (by rw [hemp]; decide), buildConditions_ok_map _ h]
  exact congrArg Except.ok (funext fun r => by
    rw [any_map_evalCond])

/-- C4: applying the compiler twice on the same base query — first
AND-combining the primary filters, then OR-combining the (nonempty)
search filters — yields exactly the conjunction of the base predicate,
the conjunction of all primary conditions, and the disjunction of the
search conditions. -/
theorem C4_and_then_or_composition (query : Row → Bool) (fs gs : List Filter)
    (hf : ∀ f ∈ fs, condOk f = true) (hg : ∀ g ∈ gs, condOk g = true)
    (hgs : gs ≠ []) :
    Except.bind (apply_filter query fs false)
        (fun q1 => apply_filter q1 gs true)
      = .ok (fun r => query r && fs.all (fun f => evalCond f r)
          && gs.any (fun g => evalCond g r)) := by
  rw [apply_filter_and_ok query fs hf]
  show apply_filter _ gs true = _
  exact apply_filter_or_ok _ gs hg hgs

/-- C4 (witness): the combined `status == "info"` AND
(`title ilike %x%` OR `message ilike %x%`) query selects exactly the
rows with matching status and the term in either field. -/
theorem C4_witness :
    Except.bind (apply_filter (fun _ => true)
        [⟨"status", "==", .str "info"⟩] false)
      (fun q1 => apply_filter q1
        (build_search_filters "x" ["title", "message"]) true)
      = .ok (fun r => (fun _ : Row => true) r
          && ([⟨"status", "==", .str "info"⟩] : List Filter).all
              (fun f => evalCond f r)
          && (build_search_filters "x" ["title", "message"]).any
              (fun g => evalCond g r))
    ∧ ((fun _ : Row => true) rowHit
        && ([⟨"status", "==", .str "info"⟩] : List Filter).all
            (fun f => evalCond f rowHit)
        && (build_search_filters "x" ["title", "message"]).any
            (fun g => evalCond g rowHit)) = true
    ∧ ((fun _ : Row => true) rowNoTerm
        && ([⟨"status", "==", .str "info"⟩] : List Filter).all
            (fun f => evalCond f rowNoTerm)
        && (build_search_filters "x" ["title", "message"]).any
            (fun g => evalCond g rowNoTerm)) = false
    ∧ ((fun _ : Row => true) rowNoStatus
        && ([⟨"status", "==", .str "info"⟩] : List Filter).all
            (fun f => evalCond f rowNoStatus)
        && (build_search_filters "x" ["title", "message"]).any
            (fun g => evalCond g rowNoStatus)) = false := by
  refine ⟨C4_and_then_or_composition (fun _ => true)
    [⟨"status", "==", .str "info"⟩]
    (build_search_filters "x" ["title", "message"])
    (by decide) (by decide) (by decide), ?_, ?_, ?_⟩ <;> decide

/-- Helper: Python's `(t + s - 1) // s` computes the ceiling of
`t / s` for a nonnegative numerator and positive divisor. -/
theorem fdiv_ceil_eq (t s : Int) (hs : 1 ≤ s) :
    (t + s - 1).fdiv s = ⌈(t : ℚ) / (s : ℚ)⌉ := by
  have hs0 : (0 : Int) < s := by omega
  have hsne : s ≠ 0 := by omega
  rw [Int.fdiv_eq_ediv _ (by omega : (0 : Int) ≤ s)]
  have hmod := Int.ediv_add_emod (t + s - 1) s
  have hr0 : 0 ≤ (t + s - 1) % s := Int.emod_nonneg _ hsne
  have hrs : (t + s - 1) % s < s := Int.emod_lt_of_pos _ hs0
  have hub : t ≤ s * ((t + s - 1) / s) := by linarith
  have hlb : s * ((t + s - 1) / s) - s < t := by linarith
  have hsQ : (0 : ℚ) < (s : ℚ) := by exact_mod_cast hs0
  symm
  rw [Int.ceil_eq_iff]
  constructor
  · rw [lt_div_iff₀ hsQ]
    have hlbQ : (s : ℚ) * ((((t + s - 1) / s : Int)) : ℚ) - s < t := by
      exact_mod_cast hlb
    ring_nf
    ring_nf at hlbQ
    linarith
  · rw [div_le_iff₀ hsQ]
    have hubQ : (t : ℚ) ≤ (s : ℚ) * ((((t + s - 1) / s : Int)) : ℚ) := by
      exact_mod_cast hub
    ring_nf
    ring_nf at hubQ
    linarith

/-- C5: for pre-validated page parameters (`page ≥ 1`, `size ≥ 1`) the
envelope satisfies `total` = number of matching rows,
`pages = max(ceil(total / size), 1)`, `has_next = (page < pages)`,
`has_prev = (page > 1)`, and the page of items is the ordered matching
rows with `offset = (page - 1) * size` and `limit = size` applied. -/
theorem C5_pagination_envelope (db : List Row) (query : Row → Bool)
    (page size : Int) (sort_by sort_order : String)
    (resp : PaginatedResponse)
    (hresp : resp = paginate_query db query
      (PageParams.make page size sort_by sort_order))
    (hpage : 1 ≤ page) (hsize : 1 ≤ size) :
    resp.total = ((db.filter query).length : Int)
    ∧ resp.pages = max ⌈(resp.total : ℚ) / (size : ℚ)⌉ 1
    ∧ resp.has_next = decide (page < resp.pages)
    ∧ resp.has_prev = decide (1 < page)
    ∧ resp.items = ((orderRows sort_by sort_order (db.filter query)).drop
        ((page - 1) * size).toNat).take size.toNat := by
  subst hresp
  unfold paginate_query PageParams.make
  refine ⟨rfl, ?_, rfl, rfl, rfl⟩
  show max ((((db.filter query).length : Int) + size - 1).fdiv size) 1 = _
  rw [fdiv_ceil_eq ((db.filter query).length : Int) size hsize]

/-- C5 (witness): with `total = 105`, `size = 20`, `page = 6` the
envelope has `pages = 6`, `has_next = False`, `has_prev = True`. -/
theorem C5_witness :
    (1 : Int) ≤ 6 ∧ (1 : Int) ≤ 20
    ∧ ((paginate_query dbDemo allRowsQuery
          (PageParams.make 6 20 "created_at" "desc")).total
        = ((dbDemo.filter allRowsQuery).length : Int)
      ∧ (paginate_query dbDemo allRowsQuery
          (PageParams.make 6 20 "created_at" "desc")).pages
        = max ⌈((paginate_query dbDemo allRowsQuery
            (PageParams.make 6 20 "created_at" "desc")).total : ℚ)
            / ((20 : Int) : ℚ)⌉ 1
      ∧ (paginate_query dbDemo allRowsQuery
          (PageParams.make 6 20 "created_at" "desc")).has_next
        = decide ((6 : Int) < (paginate_query dbDemo allRowsQuery
            (PageParams.make 6 20 "created_at" "desc")).pages)
      ∧ (paginate_query dbDemo allRowsQuery
          (PageParams.make 6 20 "created_at" "desc")).has_prev
        = decide ((1 : Int) < 6)
      ∧ (paginate_query dbDemo allRowsQuery
          (PageParams.make 6 20 "created_at" "desc")).items
        = ((orderRows "created_at" "desc"
            (dbDemo.filter allRowsQuery)).drop
              (((6 : Int) - 1) * 20).toNat).take (20 : Int).toNat)
    ∧ (paginate_query dbDemo allRowsQuery
        (PageParams.make 6 20 "created_at" "desc")).pages = 6
    ∧ (paginate_query dbDemo allRowsQuery
        (PageParams.make 6 20 "created_at" "desc")).has_next = false
    ∧ (paginate_query dbDemo allRowsQuery
        (PageParams.make 6 20 "created_at" "desc")).has_prev = true :=
  ⟨by decide, by decide,
   C5_pagination_envelope dbDemo allRowsQuery 6 20 "created_at" "desc" _
     rfl (by decide) (by decide),
   by decide, by decide, by decide⟩

end Enerlytics
